import Mathlib

/-!
Shallow embedding of the data-cleaning core of the `dana` repository
(`data_processor.py` and the cleaning route of `routes.py`): tables,
the quality report's outlier section, and the cleaning pipeline, with
theorems checking the specification's claims against the code.
-/

/-- Column dtype tag mirroring the pandas dtype classes that
`data_processor.py` dispatches on via `select_dtypes`. -/
inductive DType
  | numeric
  | object
  | datetime
  deriving DecidableEq, Repr

/-- Cell value of a dataframe: pandas NaN/None is `null`; numbers are
exact rationals (the float arithmetic of the source, made exact). -/
inductive Value
  | null
  | num (q : ℚ)
  | str (s : String)
  deriving DecidableEq, Repr

/-- Named, dtype-tagged column header. -/
structure Col where
  name : String
  dtype : DType
  deriving DecidableEq, Repr

/-- Dataframe: ordered header plus row-major cells (row i, column j). -/
structure Table where
  header : List Col
  rows : List (List Value)
  deriving DecidableEq, Repr

/-- Configuration set in `DataProcessor.__init__`. -/
structure DataProcessor where
  max_rows : Nat
  encodings : List String
  deriving Repr

/-- Default `DataProcessor()` instance: `max_rows = 100000` and the
encoding candidate list, in the order the source tries them. -/
def defaultProcessor : DataProcessor :=
  { max_rows := 100000
    encodings := ["utf-8", "latin-1", "iso-8859-1", "cp1252"] }

/-- Cell at row i, column j; `null` when out of range. -/
def colCell (t : Table) (i j : Nat) : Value :=
  (t.rows.getD i []).getD j Value.null

/-- Cells of column j, one per row, in row order (`df[col]`). -/
def colVals (t : Table) (j : Nat) : List Value :=
  t.rows.map (fun r => r.getD j Value.null)

/-- Dtype of column j (`object` when out of range). -/
def colDtype (t : Table) (j : Nat) : DType :=
  (t.header.getD j { name := "", dtype := DType.object }).dtype

/-- Name of column j. -/
def colName (t : Table) (j : Nat) : String :=
  (t.header.getD j { name := "", dtype := DType.object }).name

/-- Positions of numeric-dtype columns, in column order
(`df.select_dtypes(include=[np.number]).columns`). -/
def numericIdxs (t : Table) : List Nat :=
  (List.range t.header.length).filter (fun j => colDtype t j == DType.numeric)

/-- Count of non-null entries in column j (`df[col].notna().sum()`). -/
def notNaCount (t : Table) (j : Nat) : Nat :=
  ((colVals t j).filter (fun v => v != Value.null)).length

/-- Numeric entries of column j in row order; pandas numeric reductions
(quantile, mean, median) drop NaN, and a numeric-dtype column holds
nothing but numbers and NaN. -/
def colNums (t : Table) (j : Nat) : List ℚ :=
  (colVals t j).filterMap (fun v => match v with
    | Value.num q => some q
    | _ => none)

/-- Insertion step of the sort used before quantile interpolation. -/
def insertQ (x : ℚ) : List ℚ → List ℚ
  | [] => [x]
  | y :: ys => if x ≤ y then x :: y :: ys else y :: insertQ x ys

/-- Ascending insertion sort on rationals. -/
def sortQ (l : List ℚ) : List ℚ :=
  l.foldr insertQ []

/-- Linear-interpolation quantile of an already sorted list, the pandas
default: with n values, h = p·(n−1), and the result interpolates between
the values at positions ⌊h⌋ and ⌊h⌋+1. -/
def quantileSorted (xs : List ℚ) (p : ℚ) : ℚ :=
  let h : ℚ := p * ((xs.length : ℚ) - 1)
  let i : Nat := (⌊h⌋).toNat
  let lo := xs.getD i 0
  let hi := xs.getD (i + 1) lo
  lo + (h - (i : ℚ)) * (hi - lo)

/-- Quantile of an unsorted value list (`Series.quantile(p)` over the
non-null entries). -/
def quantileOf (vals : List ℚ) (p : ℚ) : ℚ :=
  quantileSorted (sortQ vals) p

/-- Rounding of a rational to the nearest integer, halves to even —
the semantics of Python's builtin `round`. -/
def roundHalfEven (q : ℚ) : ℤ :=
  if q - (⌊q⌋ : ℚ) < 1/2 then ⌊q⌋
  else if 1/2 < q - (⌊q⌋ : ℚ) then ⌊q⌋ + 1
  else if ⌊q⌋ % 2 = 0 then ⌊q⌋ else ⌊q⌋ + 1

/-- Python `round(x, 2)`. -/
def round2 (q : ℚ) : ℚ :=
  (roundHalfEven (q * 100) : ℚ) / 100

/-- Strict less-than of a cell against a bound; comparisons against NaN
are false in pandas, so only numeric cells can satisfy it. -/
def vLt (v : Value) (b : ℚ) : Bool :=
  match v with
  | Value.num q => if q < b then true else false
  | _ => false

/-- Strict greater-than of a cell against a bound. -/
def vGt (v : Value) (b : ℚ) : Bool :=
  match v with
  | Value.num q => if b < q then true else false
  | _ => false

/-- IQR outlier bounds of column j, lines 107-111 of `data_processor.py`:
Q1 − 1.5·IQR and Q3 + 1.5·IQR. -/
def outlierBoundsFor (t : Table) (j : Nat) : ℚ × ℚ :=
  (quantileOf (colNums t j) (1/4)
      - 3/2 * (quantileOf (colNums t j) (3/4) - quantileOf (colNums t j) (1/4)),
   quantileOf (colNums t j) (3/4)
      + 3/2 * (quantileOf (colNums t j) (3/4) - quantileOf (colNums t j) (1/4)))

/-- Number of rows whose column-j cell lies strictly outside the IQR
bounds (`len(df[(df[col] < lower) | (df[col] > upper)][col])`). -/
def colOutlierCount (t : Table) (j : Nat) : Nat :=
  ((colVals t j).filter
    (fun v => vLt v (outlierBoundsFor t j).1 || vGt v (outlierBoundsFor t j).2)).length

/-- Payload recorded per column in the quality report's outlier section. -/
structure OutlierInfo where
  count : Nat
  percentage : ℚ
  lower_bound : ℚ
  upper_bound : ℚ
  deriving DecidableEq, Repr

/-- The record `get_data_quality_info` stores for a reported column. -/
def mkOutlierInfo (t : Table) (j : Nat) : OutlierInfo :=
  { count := colOutlierCount t j
    percentage := round2 ((colOutlierCount t j : ℚ) / (t.rows.length : ℚ) * 100)
    lower_bound := (outlierBoundsFor t j).1
    upper_bound := (outlierBoundsFor t j).2 }

/-- One iteration of the outlier loop of `get_data_quality_info`: an
entry is produced only past the `> 10` non-null guard and only when at
least one outlier was found (`if len(outliers) > 0`). -/
def outlierEntry (t : Table) (j : Nat) : Option OutlierInfo :=
  if 10 < notNaCount t j then
    if 0 < colOutlierCount t j then some (mkOutlierInfo t j) else none
  else none

/-- The `outliers` section of `get_data_quality_info(df)`, keyed by
column name, in column order. -/
def get_data_quality_outliers (t : Table) : List (String × OutlierInfo) :=
  (numericIdxs t).filterMap (fun j => (outlierEntry t j).map (fun e => (colName t j, e)))

/-- Deduplication keeping the first occurrence, with `seen` the rows
already emitted; pandas `drop_duplicates` likewise treats two rows as
duplicates when all cells agree (NaN matching NaN). -/
def dedupAux {α : Type} [DecidableEq α] (seen : List α) : List α → List α
  | [] => []
  | r :: rs => if r ∈ seen then dedupAux seen rs else r :: dedupAux (r :: seen) rs

/-- Dedup operation `remove_duplicates(df)`: `df.drop_duplicates()`, keeping the first
occurrence of each row; the count it logs is not part of the result. -/
def remove_duplicates (t : Table) : Table :=
  { header := t.header, rows := dedupAux [] t.rows }

/-- Mean of a rational list (`Series.mean()` over non-null entries). -/
def meanOf (l : List ℚ) : ℚ := l.sum / (l.length : ℚ)

/-- Median as pandas computes it: the 0.5 quantile with interpolation. -/
def medianOf (l : List ℚ) : ℚ := quantileOf l (1/2)

/-- Map over a list together with the position of each element,
starting the position count at `j`. -/
def mapIdxFrom {α β : Type} (f : Nat → α → β) : Nat → List α → List β
  | _, [] => []
  | j, v :: vs => f j v :: mapIdxFrom f (j + 1) vs

/-- Fill nulls of every numeric-dtype column with a per-column statistic
(`df[numeric_columns].fillna(df[numeric_columns].mean())` and the
median analogue). A column with no numeric entries stays unfilled: its
statistic is NaN and `fillna(NaN)` changes nothing. -/
def fillNum (stat : List ℚ → ℚ) (t : Table) : Table :=
  { header := t.header
    rows := t.rows.map (fun r => mapIdxFrom (fun j v =>
      if colDtype t j = DType.numeric ∧ v = Value.null ∧ colNums t j ≠ [] then
        Value.num (stat (colNums t j))
      else v) 0 r) }

/-- Boolean order on cell values used only to resolve mode ties: pandas
`mode()` returns the most frequent values sorted ascending and the code
takes `iloc[0]`, the least. -/
def vleB : Value → Value → Bool
  | Value.null, _ => true
  | _, Value.null => false
  | Value.num a, Value.num b => decide (a ≤ b)
  | Value.num _, Value.str _ => true
  | Value.str _, Value.num _ => false
  | Value.str a, Value.str b => decide (a < b) || a == b

/-- Mode `Series.mode().iloc[0]` over the non-null entries: a value of
maximal multiplicity, ties resolved to the least by `vleB`; `none` when
there are no entries at all. -/
def modeOf (vs : List Value) : Option Value :=
  match dedupAux [] vs with
  | [] => none
  | d :: ds => some (ds.foldl (fun best v =>
      if vs.count best < vs.count v then v
      else if vs.count v == vs.count best && vleB v best then v
      else best) d)

/-- The `fill_mode` branch: each object-dtype column has its nulls
replaced by the column's mode, or by "Unknown" when the column has no
non-null entry (`mode().iloc[0] if not mode().empty else 'Unknown'`). -/
def fillMode (t : Table) : Table :=
  { header := t.header
    rows := t.rows.map (fun r => mapIdxFrom (fun j v =>
      if colDtype t j = DType.object ∧ v = Value.null then
        (modeOf ((colVals t j).filter (fun w => w != Value.null))).getD (Value.str "Unknown")
      else v) 0 r) }

/-- Row filter `df.dropna()`: keep exactly the rows with no null in any column. -/
def dropNaRows (t : Table) : Table :=
  { header := t.header
    rows := t.rows.filter (fun r =>
      (List.range t.header.length).all (fun j => r.getD j Value.null != Value.null)) }

/-- Returned dataframe of `handle_missing_values(df, strategy)`.
Unrecognized strategies fall through to the final `else: return df`. -/
def handle_missing_values (strategy : String) (t : Table) : Table :=
  if strategy = "drop" then dropNaRows t
  else if strategy = "fill_mean" then fillNum meanOf t
  else if strategy = "fill_median" then fillNum medianOf t
  else if strategy = "fill_mode" then fillMode t
  else t

/-- State of the caller's dataframe argument once `handle_missing_values`
returns: `dropna()` allocates a new frame and leaves the argument alone,
but the `fill_*` branches assign into the argument
(`df[numeric_columns] = ...`, `df[col] = ...`) before returning it, so
for them the argument ends up equal to the returned frame. -/
def handle_missing_values_argAfter (strategy : String) (t : Table) : Table :=
  if strategy = "drop" then t
  else if strategy = "fill_mean" then fillNum meanOf t
  else if strategy = "fill_median" then fillNum medianOf t
  else if strategy = "fill_mode" then fillMode t
  else t

/-- State of the argument after `remove_duplicates`: `drop_duplicates()`
returns a new frame and never writes into its receiver. -/
def remove_duplicates_argAfter (t : Table) : Table := t

/-- The `valid_columns` of `remove_outliers`: numeric columns with more
than 10 non-null values, in column order. -/
def validIdxs (t : Table) : List Nat :=
  (numericIdxs t).filter (fun j => decide (10 < notNaCount t j))

/-- Row positions surviving `df[valid_columns].dropna()`: the rows with
no null in any valid column, in row order. -/
def completePositions (t : Table) : List Nat :=
  (List.range t.rows.length).filter (fun i =>
    (validIdxs t).all (fun j => colCell t i j != Value.null))

/-- Numeric content of a cell; the non-numeric case cannot arise for the
cells actually read (complete rows of numeric columns). -/
def cellQ (t : Table) (i j : Nat) : ℚ :=
  match colCell t i j with
  | Value.num q => q
  | _ => 0

/-- The matrix handed to `fit_predict`: complete rows by valid columns. -/
def outlierMatrix (t : Table) : List (List ℚ) :=
  (completePositions t).map (fun i => (validIdxs t).map (fun j => cellQ t i j))

/-- The `non_outlier_indices` of `remove_outliers`: positions of the fit
set whose model label is "not anomalous". The fitted model is a
parameter standing for `IsolationForest(contamination=0.1,
random_state=42).fit_predict`, with `true` for label 1. -/
def keptPositions (model : List (List ℚ) → List Bool) (t : Table) : List Nat :=
  ((completePositions t).zip (model (outlierMatrix t))).filterMap
    (fun p => if p.2 then some p.1 else none)

/-- Outlier removal `remove_outliers(df)`, parameterized by the fitted model's
labelling; mirrors the three early returns (no numeric columns, no
valid columns, fewer than 10 complete rows) and otherwise selects
`df.loc[non_outlier_indices]`. -/
def remove_outliers (model : List (List ℚ) → List Bool) (t : Table) : Table :=
  if numericIdxs t = [] then t
  else if validIdxs t = [] then t
  else if (completePositions t).length < 10 then t
  else { header := t.header
         rows := (keptPositions model t).map (fun i => t.rows.getD i []) }

/-- State of the argument after `remove_outliers`: `df.loc[...]`
produces a new frame and the input is never written to. -/
def remove_outliers_argAfter (_model : List (List ℚ) → List Bool) (t : Table) : Table := t

/-- Lines 39-49 of `load_data`: the `df.empty` rejection followed by the
row cap. `parsed` is the frame produced by the format-specific read
(`pd.read_csv` / `pd.read_excel`), `none` when that read raised. -/
def load_data (p : DataProcessor) (parsed : Option Table) : Option Table :=
  match parsed with
  | none => none
  | some df =>
    if df.rows = [] ∨ df.header = [] then none
    else if p.max_rows < df.rows.length then
      some { header := df.header, rows := df.rows.take p.max_rows }
    else some df

/-- The CSV encoding loop of `load_data`: the first encoding whose
decode does not raise `UnicodeDecodeError` wins (its decoded text is
then parsed); the `none` result is the exhausted `for`-`else` branch
that logs "Failed to load CSV with any encoding". -/
def csvDecodeLoop (dec : String → List Nat → Option (List Nat)) :
    List String → List Nat → Option (String × List Nat)
  | [], _ => none
  | e :: rest, bs =>
    match dec e bs with
    | some txt => some (e, txt)
    | none => csvDecodeLoop dec rest bs

/-- Modelled from the spec: the Python codecs used by `pd.read_csv` are
library code outside this repository. "latin-1" maps each byte to the
code point of equal value and never fails on any byte sequence; the
"utf-8", "iso-8859-1" and "cp1252" decoders are left abstract. -/
def pyDecode (utf8dec isodec cpdec : List Nat → Option (List Nat)) :
    String → List Nat → Option (List Nat) :=
  fun e bs =>
    if e = "utf-8" then utf8dec bs
    else if e = "latin-1" then some bs
    else if e = "iso-8859-1" then isodec bs
    else if e = "cp1252" then cpdec bs
    else none

/-- The cleaning options read from the POST form in `routes.clean`:
presence flags for the three operations plus the optional strategy
(defaulted to "drop" via `clean_options.get('missing_strategy', 'drop')`). -/
structure CleanOptions where
  remove_duplicates : Bool
  handle_missing : Bool
  missing_strategy : Option String
  remove_outliers : Bool

/-- The POST branch of `routes.clean` (lines 123-135): duplicates, then
missing values, then outliers, each on the previous stage's output. -/
def clean (model : List (List ℚ) → List Bool) (opts : CleanOptions) (df : Table) : Table :=
  let df1 := if opts.remove_duplicates then remove_duplicates df else df
  let df2 := if opts.handle_missing then
      handle_missing_values (opts.missing_strategy.getD "drop") df1
    else df1
  if opts.remove_outliers then remove_outliers model df2 else df2

/-- An empty cleaning request: no form field present. -/
def emptyOptions : CleanOptions :=
  { remove_duplicates := false
    handle_missing := false
    missing_strategy := none
    remove_outliers := false }

/-- Single numeric column used by the concrete test tables. -/
def colX : Col := { name := "x", dtype := DType.numeric }

/-- Model labelling every fitted row as normal (label 1). -/
def modelAllNormal : List (List ℚ) → List Bool :=
  fun m => m.map (fun _ => true)

/-- Table of 12 rows over one numeric column: rows 0-10 hold the numbers
0-10, row 11 holds a null. -/
def T12 : Table :=
  { header := [colX]
    rows := [[Value.num 0], [Value.num 1], [Value.num 2], [Value.num 3],
             [Value.num 4], [Value.num 5], [Value.num 6], [Value.num 7],
             [Value.num 8], [Value.num 9], [Value.num 10], [Value.null]] }

/-- Table of 11 rows over one numeric column holding 1..11 (no nulls, and
no IQR outliers). -/
def T11 : Table :=
  { header := [colX]
    rows := [[Value.num 1], [Value.num 2], [Value.num 3], [Value.num 4],
             [Value.num 5], [Value.num 6], [Value.num 7], [Value.num 8],
             [Value.num 9], [Value.num 10], [Value.num 11]] }

/-- The spec's IQR sample column [1, 2, 3, 4, 5, 100]. -/
def T6 : Table :=
  { header := [colX]
    rows := [[Value.num 1], [Value.num 2], [Value.num 3],
             [Value.num 4], [Value.num 5], [Value.num 100]] }

/-- Numeric table of 3 rows, too small for outlier removal. -/
def T3 : Table :=
  { header := [colX], rows := [[Value.num 1], [Value.num 2], [Value.num 3]] }

/-- Numeric table holding [1, null, 3], the spec's `fill_mean` sample. -/
def T3null : Table :=
  { header := [colX], rows := [[Value.num 1], [Value.null], [Value.num 3]] }

/-- Two-row table used to instantiate the unrecognized-strategy case. -/
def T2 : Table :=
  { header := [colX], rows := [[Value.num 1], [Value.num 2]] }

/-- Single-column table of 100001 rows, exceeding the row cap by one. -/
def wideT : Table :=
  { header := [colX], rows := List.replicate 100001 [Value.num 1] }

/-! Theorems checking the claims. -/

/-- Elements kept by `keptPositions` are exactly the fit-set positions
paired with label `true` by the model. -/
theorem mem_keptPositions (model : List (List ℚ) → List Bool) (t : Table) (i : Nat) :
    i ∈ keptPositions model t ↔
      (i, true) ∈ (completePositions t).zip (model (outlierMatrix t)) := by
  unfold keptPositions
  rw [List.mem_filterMap]
  constructor
  · rintro ⟨⟨a, b⟩, hmem, hif⟩
    cases b
    · simp at hif
    · simp at hif
      rw [hif] at hmem
      exact hmem
  · intro h
    exact ⟨(i, true), h, rfl⟩

/-- A nonempty valid-column list forces a nonempty numeric-column list. -/
theorem numericIdxs_ne_nil_of_validIdxs (t : Table) (h : validIdxs t ≠ []) :
    numericIdxs t ≠ [] := by
  intro hn
  apply h
  unfold validIdxs
  rw [hn]
  rfl

/-- Positions in the fit set have no null in any valid column. -/
theorem completePositions_no_null (t : Table) (i : Nat)
    (h : i ∈ completePositions t) :
    ∀ j ∈ validIdxs t, colCell t i j ≠ Value.null := by
  unfold completePositions at h
  rw [List.mem_filter] at h
  intro j hj
  have := h.2
  rw [List.all_eq_true] at this
  have hx := this j hj
  simpa using hx

/-- C1 (amended): when outlier removal actually runs (some valid column
and at least 10 complete rows), the kept row positions are exactly the
fit-set positions the model labels as normal, every row with a null in
an evaluated column is dropped from the output, and the output rows are
the kept positions' rows of the input. -/
theorem remove_outliers_keeps_exactly_unflagged_complete_rows
    (model : List (List ℚ) → List Bool) (t : Table) (i : Nat)
    (hv : validIdxs t ≠ []) (hc : 10 ≤ (completePositions t).length) :
    (i ∈ keptPositions model t ↔
        (i, true) ∈ (completePositions t).zip (model (outlierMatrix t)))
    ∧ ((∃ j ∈ validIdxs t, colCell t i j = Value.null) → i ∉ keptPositions model t)
    ∧ (remove_outliers model t).rows
        = (keptPositions model t).map (fun k => t.rows.getD k []) := by
  refine ⟨mem_keptPositions model t i, ?_, ?_⟩
  · rintro ⟨j, hj, hnull⟩ hkept
    have hz := (mem_keptPositions model t i).mp hkept
    have hi : i ∈ completePositions t := (List.of_mem_zip hz).1
    exact completePositions_no_null t i hi j hj hnull
  · unfold remove_outliers
    rw [if_neg (numericIdxs_ne_nil_of_validIdxs t hv), if_neg hv,
      if_neg (by omega : ¬(completePositions t).length < 10)]

/-- Witness for C1 at a concrete table and model: `T12` has one valid
numeric column, 11 complete rows, and a null row at position 11. -/
theorem remove_outliers_keeps_exactly_unflagged_complete_rows_witness :
    validIdxs T12 ≠ [] ∧ 10 ≤ (completePositions T12).length ∧
    ((11 ∈ keptPositions modelAllNormal T12 ↔
        (11, true) ∈ (completePositions T12).zip (modelAllNormal (outlierMatrix T12)))
      ∧ ((∃ j ∈ validIdxs T12, colCell T12 11 j = Value.null) →
          11 ∉ keptPositions modelAllNormal T12)
      ∧ (remove_outliers modelAllNormal T12).rows
          = (keptPositions modelAllNormal T12).map (fun k => T12.rows.getD k [])) :=
  ⟨by decide, by decide,
    remove_outliers_keeps_exactly_unflagged_complete_rows modelAllNormal T12 11
      (by decide) (by decide)⟩

/-- C1 (counterexample to the claim as stated): on `T12`, with a model
that flags no fit row as anomalous, the null row at position 11 is
nevertheless dropped — the output has 11 of the 12 input rows — so a
row with a null in an evaluated numeric column is not retained. -/
theorem remove_outliers_drops_null_rows_cex :
    (∃ j ∈ validIdxs T12, colCell T12 11 j = Value.null)
    ∧ 11 ∉ keptPositions modelAllNormal T12
    ∧ (remove_outliers modelAllNormal T12).rows.length = 11
    ∧ T12.rows.length = 12 := by
  decide

/-- C2 (amended): `remove_duplicates` and `remove_outliers` leave their
argument unchanged, as does `handle_missing_values` under the "drop"
strategy or an unrecognized strategy; under the three fill strategies
the argument is mutated in place to the returned table. -/
theorem cleaning_ops_mutation_profile (t : Table) (strat : String)
    (model : List (List ℚ) → List Bool) :
    remove_duplicates_argAfter t = t
    ∧ remove_outliers_argAfter model t = t
    ∧ handle_missing_values_argAfter "drop" t = t
    ∧ handle_missing_values_argAfter "fill_mean" t = handle_missing_values "fill_mean" t
    ∧ handle_missing_values_argAfter "fill_median" t = handle_missing_values "fill_median" t
    ∧ handle_missing_values_argAfter "fill_mode" t = handle_missing_values "fill_mode" t
    ∧ (strat ≠ "drop" → strat ≠ "fill_mean" → strat ≠ "fill_median" → strat ≠ "fill_mode" →
        handle_missing_values_argAfter strat t = t) := by
  refine ⟨rfl, rfl, rfl, rfl, rfl, rfl, ?_⟩
  intro h1 h2 h3 h4
  unfold handle_missing_values_argAfter
  rw [if_neg h1, if_neg h2, if_neg h3, if_neg h4]

/-- Witness for C2 at a concrete table and an unrecognized strategy. -/
theorem cleaning_ops_mutation_profile_witness :
    ("nope" ≠ "drop" ∧ "nope" ≠ "fill_mean" ∧ "nope" ≠ "fill_median" ∧ "nope" ≠ "fill_mode")
    ∧ handle_missing_values_argAfter "nope" T2 = T2 :=
  ⟨⟨by decide, by decide, by decide, by decide⟩,
    (cleaning_ops_mutation_profile T2 "nope" modelAllNormal).2.2.2.2.2.2
      (by decide) (by decide) (by decide) (by decide)⟩

/-- C2 (counterexample to the claim as stated): `fill_mean` on the
3-row table with a null mutates the caller's dataframe — after the call
the argument equals the filled table `[[1], [2], [3]]`, not the input. -/
theorem fill_mean_mutates_argument_cex :
    handle_missing_values_argAfter "fill_mean" T3null ≠ T3null
    ∧ handle_missing_values_argAfter "fill_mean" T3null
        = { header := [colX], rows := [[Value.num 1], [Value.num 2], [Value.num 3]] } := by
  have hd : colDtype T3null 0 = DType.numeric := rfl
  have hc : colNums T3null 0 = [1, 3] := by simp [colNums, colVals, T3null, colX]
  have hmean : meanOf [(1 : ℚ), 3] = 2 := by
    rw [meanOf]
    norm_num
  have hfill : handle_missing_values_argAfter "fill_mean" T3null
      = { header := [colX], rows := [[Value.num 1], [Value.num 2], [Value.num 3]] } := by
    show fillNum meanOf T3null = _
    rw [fillNum, show T3null.rows = [[Value.num 1], [Value.null], [Value.num 3]] from rfl,
      show T3null.header = [colX] from rfl]
    simp [mapIdxFrom, hd, hc, hmean]
  refine ⟨?_, hfill⟩
  rw [hfill]
  simp [T3null]

/-- C3 (amended): the quality report's outlier section holds an entry
for a column name and payload exactly when some numeric column of that
name has more than 10 non-null values and at least one value strictly
outside the IQR bounds, the payload recording that column's outlier
count, its percentage of all rows rounded to 2 decimals, and the
bounds Q1 − 1.5·IQR and Q3 + 1.5·IQR. -/
theorem quality_outliers_membership (t : Table) (nm : String) (info : OutlierInfo) :
    (nm, info) ∈ get_data_quality_outliers t ↔
      ∃ j ∈ numericIdxs t, colName t j = nm ∧ 10 < notNaCount t j
        ∧ 0 < colOutlierCount t j ∧ info = mkOutlierInfo t j := by
  rw [get_data_quality_outliers, List.mem_filterMap]
  constructor
  · rintro ⟨j, hj, hmap⟩
    rw [Option.map_eq_some'] at hmap
    obtain ⟨e, he, hpair⟩ := hmap
    rw [outlierEntry] at he
    by_cases h1 : 10 < notNaCount t j
    · rw [if_pos h1] at he
      by_cases h2 : 0 < colOutlierCount t j
      · rw [if_pos h2] at he
        have hee : mkOutlierInfo t j = e := by
          injection he
        obtain ⟨hnm, hinfo⟩ := Prod.mk.injEq .. ▸ hpair
        exact ⟨j, hj, hnm, h1, h2, by rw [← hinfo, ← hee]⟩
      · rw [if_neg h2] at he
        exact absurd he (by simp)
    · rw [if_neg h1] at he
      exact absurd he (by simp)
  · rintro ⟨j, hj, hnm, h1, h2, hinfo⟩
    refine ⟨j, hj, ?_⟩
    rw [outlierEntry, if_pos h1, if_pos h2, Option.map_some', hnm, hinfo]

/-- C3 (counterexample to the claim as stated): `T11` has a numeric
column with 11 non-null values, yet the outlier section is empty,
because the column has no value outside its IQR bounds [-4, 16] and
the code only records a column when `len(outliers) > 0`. -/
theorem quality_outliers_omits_outlier_free_column_cex :
    10 < notNaCount T11 0 ∧ colDtype T11 0 = DType.numeric
    ∧ get_data_quality_outliers T11 = [] := by
  have hc : colNums T11 0 = [1, 2, 3, 4, 5, 6, 7, 8, 9, 10, 11] := by
    simp [colNums, colVals, T11, colX]
  have hs : sortQ [(1 : ℚ), 2, 3, 4, 5, 6, 7, 8, 9, 10, 11]
      = [1, 2, 3, 4, 5, 6, 7, 8, 9, 10, 11] := by
    norm_num [sortQ, insertQ]
  have h1 : quantileOf (colNums T11 0) (1/4) = 7/2 := by
    rw [hc, quantileOf, hs]
    norm_num [quantileSorted]
    simp
    norm_num
  have h3 : quantileOf (colNums T11 0) (3/4) = 17/2 := by
    rw [hc, quantileOf, hs]
    norm_num [quantileSorted]
    simp
    norm_num
  have hb : outlierBoundsFor T11 0 = (-4, 16) := by
    rw [outlierBoundsFor, h1, h3]
    norm_num
  have hcount : colOutlierCount T11 0 = 0 := by
    rw [colOutlierCount, hb]
    norm_num [colVals, T11, colX, vLt, vGt]
  have hentry : outlierEntry T11 0 = none := by
    rw [outlierEntry, hcount]
    simp
  have hnum : numericIdxs T11 = [0] := by decide
  refine ⟨by decide, by decide, ?_⟩
  rw [get_data_quality_outliers, hnum]
  simp [hentry]

/-- C4 (amended): when the parsed input has more than 100000 rows (and
at least one column), `load_data` with the default configuration
succeeds and returns exactly the first 100000 rows; no truncation flag
accompanies the result. -/
theorem load_data_truncates_to_max_rows (t : Table)
    (hh : t.header ≠ []) (hr : 100000 < t.rows.length) :
    load_data defaultProcessor (some t)
      = some { header := t.header, rows := t.rows.take 100000 } := by
  have h0 : ¬(t.rows = [] ∨ t.header = []) := by
    rintro (h | h)
    · rw [h] at hr
      simp at hr
    · exact hh h
  show (if t.rows = [] ∨ t.header = [] then none
      else if 100000 < t.rows.length then
        some { header := t.header, rows := t.rows.take 100000 }
      else some t)
    = some { header := t.header, rows := t.rows.take 100000 }
  rw [if_neg h0, if_pos hr]

/-- Witness for C4 on the 100001-row table. -/
theorem load_data_truncates_to_max_rows_witness :
    wideT.header ≠ [] ∧ 100000 < wideT.rows.length ∧
    load_data defaultProcessor (some wideT)
      = some { header := wideT.header, rows := wideT.rows.take 100000 } :=
  ⟨by decide,
    by rw [show wideT.rows = List.replicate 100001 [Value.num 1] from rfl,
        List.length_replicate]; norm_num,
    load_data_truncates_to_max_rows wideT (by decide)
      (by rw [show wideT.rows = List.replicate 100001 [Value.num 1] from rfl,
          List.length_replicate]; norm_num)⟩

/-- C4 (counterexample to the claim as stated): `load_data` returns the
same value on the 100001-row table as on its already-truncated 100000-row
prefix, so the result carries no flag from which a caller could tell
that truncation happened. -/
theorem load_data_no_truncation_flag_cex :
    100000 < wideT.rows.length
    ∧ ({ header := wideT.header, rows := wideT.rows.take 100000 } : Table).rows.length ≤ 100000
    ∧ load_data defaultProcessor (some wideT)
        = load_data defaultProcessor
            (some { header := wideT.header, rows := wideT.rows.take 100000 }) := by
  have hrepl : wideT.rows = List.replicate 100001 [Value.num 1] := rfl
  have hlen : wideT.rows.length = 100001 := by
    rw [hrepl, List.length_replicate]
  have htake : wideT.rows.take 100000 = List.replicate 100000 [Value.num 1] := by
    rw [hrepl, List.take_replicate]
    norm_num
  have hc1 : ¬(wideT.rows = [] ∨ wideT.header = []) := by
    rintro (h | h)
    · rw [h] at hlen
      simp at hlen
    · exact absurd h (by decide)
  have hbig : load_data defaultProcessor (some wideT)
      = some { header := wideT.header, rows := List.replicate 100000 [Value.num 1] } := by
    show (if wideT.rows = [] ∨ wideT.header = [] then none
        else if 100000 < wideT.rows.length then
          some { header := wideT.header, rows := wideT.rows.take 100000 }
        else some wideT) = _
    rw [if_neg hc1, if_pos (show 100000 < wideT.rows.length by rw [hlen]; norm_num), htake]
  have hc2 : ¬(wideT.rows.take 100000 = [] ∨ wideT.header = []) := by
    rintro (h | h)
    · rw [htake] at h
      have hx := congrArg List.length h
      rw [List.length_replicate] at hx
      simp at hx
    · exact absurd h (by decide)
  have hsmall : load_data defaultProcessor
        (some { header := wideT.header, rows := wideT.rows.take 100000 })
      = some { header := wideT.header, rows := List.replicate 100000 [Value.num 1] } := by
    simp only [load_data]
    rw [if_neg hc2,
      if_neg (show ¬ defaultProcessor.max_rows < (wideT.rows.take 100000).length by
        rw [htake, List.length_replicate]
        norm_num [defaultProcessor]),
      htake]
  refine ⟨by rw [hlen]; norm_num, ?_, by rw [hbig, hsmall]⟩
  show (wideT.rows.take 100000).length ≤ 100000
  rw [htake, List.length_replicate]

/-- C5: on the column [1, 2, 3, 4, 5, 100] the IQR computation of
`get_data_quality_info` yields Q1 = 2.25, Q3 = 4.75, IQR = 2.5 and
bounds [-1.5, 8.5], and exactly the value 100 is strictly outside. -/
theorem iqr_bounds_on_sample_column :
    quantileOf (colNums T6 0) (1/4) = 9/4
    ∧ quantileOf (colNums T6 0) (3/4) = 19/4
    ∧ quantileOf (colNums T6 0) (3/4) - quantileOf (colNums T6 0) (1/4) = 5/2
    ∧ outlierBoundsFor T6 0 = (-(3/2), 17/2)
    ∧ (colVals T6 0).filter
        (fun v => vLt v (outlierBoundsFor T6 0).1 || vGt v (outlierBoundsFor T6 0).2)
        = [Value.num 100] := by
  have hc : colNums T6 0 = [1, 2, 3, 4, 5, 100] := by
    simp [colNums, colVals, T6, colX]
  have hs : sortQ [(1 : ℚ), 2, 3, 4, 5, 100] = [1, 2, 3, 4, 5, 100] := by
    norm_num [sortQ, insertQ]
  have h1 : quantileOf (colNums T6 0) (1/4) = 9/4 := by
    rw [hc, quantileOf, hs]
    norm_num [quantileSorted]
  have h3 : quantileOf (colNums T6 0) (3/4) = 19/4 := by
    rw [hc, quantileOf, hs]
    norm_num [quantileSorted]
    simp
    norm_num
  have hb : outlierBoundsFor T6 0 = (-(3/2), 17/2) := by
    rw [outlierBoundsFor, h1, h3]
    norm_num
  refine ⟨h1, h3, by rw [h1, h3]; norm_num, hb, ?_⟩
  rw [hb]
  norm_num [colVals, T6, colX, vLt, vGt]

/-- C6: the cleaning pipeline with no option selected returns the input
table unchanged, for every model and table. -/
theorem clean_empty_request_id (model : List (List ℚ) → List Bool) (t : Table) :
    clean model emptyOptions t = t := rfl

/-- Deduplication with a fixed seen-set is idempotent. -/
theorem dedupAux_idem {α : Type} [DecidableEq α] (l : List α) :
    ∀ seen : List α, dedupAux seen (dedupAux seen l) = dedupAux seen l := by
  induction l with
  | nil => intro seen; rfl
  | cons r rs ih =>
    intro seen
    by_cases h : r ∈ seen
    · simp only [dedupAux, if_pos h]
      exact ih seen
    · simp only [dedupAux, if_neg h]
      rw [ih (r :: seen)]

/-- C7: `remove_duplicates` is idempotent. -/
theorem remove_duplicates_idempotent (t : Table) :
    remove_duplicates (remove_duplicates t) = remove_duplicates t := by
  unfold remove_duplicates
  rw [dedupAux_idem t.rows []]

/-- C8: when no numeric column passes the >10 non-null threshold, or
fewer than 10 complete rows remain over the valid columns,
`remove_outliers` returns its input unchanged. -/
theorem remove_outliers_skips_insufficient_data
    (model : List (List ℚ) → List Bool) (t : Table)
    (h : validIdxs t = [] ∨ (completePositions t).length < 10) :
    remove_outliers model t = t := by
  unfold remove_outliers
  rcases h with h | h
  · by_cases h1 : numericIdxs t = []
    · rw [if_pos h1]
    · rw [if_neg h1, if_pos h]
  · by_cases h1 : numericIdxs t = []
    · rw [if_pos h1]
    · rw [if_neg h1]
      by_cases h2 : validIdxs t = []
      · rw [if_pos h2]
      · rw [if_neg h2, if_pos h]

/-- Witness for C8 on the 3-row table: its only numeric column has just
3 non-null values, so no valid column exists. -/
theorem remove_outliers_skips_insufficient_data_witness :
    (validIdxs T3 = [] ∨ (completePositions T3).length < 10)
    ∧ remove_outliers modelAllNormal T3 = T3 :=
  ⟨by decide, remove_outliers_skips_insufficient_data modelAllNormal T3 (by decide)⟩

/-- C9: the three cleaning operations preserve the header — same
columns, same order, same dtypes — for every table, strategy and model. -/
theorem cleaning_ops_preserve_header (t : Table) (strategy : String)
    (model : List (List ℚ) → List Bool) :
    (remove_duplicates t).header = t.header
    ∧ (handle_missing_values strategy t).header = t.header
    ∧ (remove_outliers model t).header = t.header := by
  refine ⟨rfl, ?_, ?_⟩
  · unfold handle_missing_values
    split_ifs <;> rfl
  · unfold remove_outliers
    split_ifs <;> rfl

/-- C10: the encoding loop of `load_data` can never exhaust its
candidate list, whatever the "utf-8", "iso-8859-1" and "cp1252"
decoders do on the byte content, because "latin-1" is tried second and
decodes every byte sequence. -/
theorem csv_decode_never_exhausts_encodings
    (utf8dec isodec cpdec : List Nat → Option (List Nat)) (bs : List Nat) :
    (csvDecodeLoop (pyDecode utf8dec isodec cpdec) defaultProcessor.encodings bs).isSome
      = true := by
  show (csvDecodeLoop (pyDecode utf8dec isodec cpdec)
      ["utf-8", "latin-1", "iso-8859-1", "cp1252"] bs).isSome = true
  rw [csvDecodeLoop]
  cases hu : pyDecode utf8dec isodec cpdec "utf-8" bs with
  | some txt => rfl
  | none =>
    rw [csvDecodeLoop]
    have hl : pyDecode utf8dec isodec cpdec "latin-1" bs = some bs := by
      unfold pyDecode
      rw [if_neg (by decide : ¬("latin-1" : String) = "utf-8"), if_pos rfl]
    rw [hl]
    rfl
